import Mathlib

/-!
Verification development for the Snowflake role-hierarchy explorer
(`user_role_hierarchy3.py`): a Flask query service that resolves a user's
transitive role grants with a recursive CTE over
`snowflake.account_usage.grants_to_users` / `grants_to_roles`, and a PyQt
fetch-worker thread that delivers the result asynchronously.

The embedding models Python strings as Lean `String`s, with the Python
string operations (`strip`, `upper`, `lower`, substring `in`) re-expressed
as executable functions over the character data so that every claim can be
evaluated on concrete inputs.
-/

/-- Python `str.strip()`: drop whitespace from both ends. -/
def pyStrip (s : String) : String :=
  ⟨((s.data.dropWhile Char.isWhitespace).reverse.dropWhile Char.isWhitespace).reverse⟩

/-- Python `str.upper()` (ASCII range, as used for role identifiers). -/
def pyUpper (s : String) : String :=
  ⟨s.data.map Char.toUpper⟩

/-- Python `str.lower()` (ASCII range). -/
def pyLower (s : String) : String :=
  ⟨s.data.map Char.toLower⟩

/-- Substring test over character lists: does `pat` occur inside `l`? -/
def subOcc (pat : List Char) : List Char → Bool
  | [] => pat.isEmpty
  | c :: rest => pat.isPrefixOf (c :: rest) || subOcc pat rest

/-- Python `pat in s` on strings (substring containment). -/
def strContains (s pat : String) : Bool :=
  subOcc pat.data s.data

/-- Number of occurrences of `pat` inside `l` (all start positions). -/
def countOcc (pat : List Char) : List Char → Nat
  | [] => 0
  | c :: rest => (if pat.isPrefixOf (c :: rest) then 1 else 0) + countOcc pat rest

/-- Join a list of strings with a separator, mirroring the incremental
`path_string || sep || name` concatenation performed by the recursive CTE. -/
def joinSep (sep : String) : List String → String
  | [] => ""
  | [x] => x
  | x :: y :: xs => x ++ sep ++ joinSep sep (y :: xs)

/-- Segment count of a path string: occurrences of the separator plus one. -/
def segCount (s : String) : Nat :=
  countOcc " -> ".data s.data + 1

/-- A row of `snowflake.account_usage.grants_to_users`
(the columns the CTE reads). -/
structure GrantToUser where
  granteeName : String
  role : String
  deletedOn : Option String
deriving DecidableEq

/-- A row of `snowflake.account_usage.grants_to_roles`
(the columns the CTE reads). -/
structure GrantToRole where
  granteeName : String
  name : String
  privilege : String
  grantedOn : String
  deletedOn : Option String
deriving DecidableEq

/-- The grant store: the two edge relations the CTE queries. -/
structure GrantStore where
  grantsToUsers : List GrantToUser
  grantsToRoles : List GrantToRole
deriving DecidableEq

/-- A row of the recursive CTE `user_role_hierarchy`.  The `names` field
records the sequence of role names along the chain; the CTE's `path_string`
column is their ` -> `-join (see `HierarchyNode.path_string`). -/
structure HierarchyNode where
  level : Nat
  roleName : String
  grantedViaType : String
  grantedViaName : String
  names : List String
deriving DecidableEq

/-- The CTE's `path_string` column for a row. -/
def HierarchyNode.path_string (n : HierarchyNode) : String :=
  joinSep " -> " n.names

/-- Anchor member of the CTE: roles directly granted to the user
(`grantee_name = principal`, `deleted_on IS NULL`), at level 0 with
`path_string = role`. -/
def anchorNodes (store : GrantStore) (principal : String) : List HierarchyNode :=
  (store.grantsToUsers.filter
      (fun g => g.granteeName = principal ∧ g.deletedOn = none)).map
    (fun g =>
      { level := 0, roleName := g.role, grantedViaType := "USER",
        grantedViaName := g.granteeName, names := [g.role] })

/-- Recursive member of the CTE for one row `n`: join `grants_to_roles` on
`grantee_name = n.role_name` with `privilege = 'USAGE'`,
`granted_on = 'ROLE'`, `deleted_on IS NULL`, producing level `n.level + 1`
rows whose path extends `n`'s by the new role name. -/
def expandNode (store : GrantStore) (n : HierarchyNode) : List HierarchyNode :=
  (store.grantsToRoles.filter
      (fun g => g.granteeName = n.roleName ∧ g.privilege = "USAGE" ∧
        g.grantedOn = "ROLE" ∧ g.deletedOn = none)).map
    (fun g =>
      { level := n.level + 1, roleName := g.name, grantedViaType := "ROLE",
        grantedViaName := g.granteeName, names := n.names ++ [g.name] })

/-- One iteration of the recursive CTE: expand every row of the previous
iteration, guarded by the `urh.level < 20` condition of the WHERE clause. -/
def expandFrontier (store : GrantStore) (frontier : List HierarchyNode) :
    List HierarchyNode :=
  frontier.flatMap (fun n => if n.level < 20 then expandNode store n else [])

/-- Iterate the recursive member, accumulating every produced row.  Because
each row of iteration `k` has level `k` and the guard stops expansion at
level 20, twenty iterations reach the CTE's fixed point from the level-0
anchor. -/
def expandAll (store : GrantStore) : List HierarchyNode → Nat → List HierarchyNode
  | _, 0 => []
  | frontier, fuel + 1 =>
    expandFrontier store frontier ++
      expandAll store (expandFrontier store frontier) fuel

/-- All rows of the recursive CTE for a principal: the anchor rows plus
every row produced by the recursive member. -/
def cteRows (store : GrantStore) (principal : String) : List HierarchyNode :=
  anchorNodes store principal ++ expandAll store (anchorNodes store principal) 20

/-- Lexicographic comparison of character lists by code point; on UTF-8
data this coincides with byte-wise lexicographic order. -/
def charListLe : List Char → List Char → Bool
  | [], _ => true
  | _ :: _, [] => false
  | a :: as, b :: bs => if a < b then true else if b < a then false else charListLe as bs

/-- Byte-wise lexicographic order on strings (the collation of the query's
`ORDER BY path_string`). -/
def strLe (a b : String) : Bool :=
  charListLe a.data b.data

/-- Ordering used by the final `ORDER BY path_string`. -/
def pathLe (a b : HierarchyNode) : Prop :=
  strLe a.path_string b.path_string = true

instance : DecidableRel pathLe := fun a b =>
  inferInstanceAs (Decidable (strLe a.path_string b.path_string = true))

/-- The final SELECT of the query: all CTE rows ordered by `path_string`. -/
def cteSorted (store : GrantStore) (principal : String) : List HierarchyNode :=
  (cteRows store principal).insertionSort pathLe

/-- The list of path strings the route accumulates (`row[4]` of each result
row, in query order). -/
def resolvePaths (store : GrantStore) (principal : String) : List String :=
  (cteSorted store principal).map HierarchyNode.path_string

/-- The Python exceptions the route distinguishes:
`snowflake.connector.errors.ProgrammingError`, `ValueError`, and any other
`Exception`, each carrying its `str(e)` detail text. -/
inductive PyExc where
  | programmingError (detail : String)
  | valueError (detail : String)
  | otherExc (detail : String)
deriving DecidableEq

/-- Behaviour of the store driver in one invocation of the route: the grant
data, plus whether `connect`, `connection.cursor()` or
`cur.execute`/`fetchall` raises. -/
structure StoreEnv where
  store : GrantStore
  connectExc : Option PyExc
  cursorExc : Option PyExc
  executeExc : Option PyExc
deriving DecidableEq

/-- A JSON response body produced by `jsonify`: either an array of strings
or an error object with an `error` field and an optional `details` field. -/
inductive ResponseBody where
  | strings (items : List String)
  | errorObj (error : String) (details : Option String)
deriving DecidableEq

/-- Result of one invocation of the route handler: HTTP status, body, and
the resource/trace facts the claims are about — whether a connection was
opened, whether connection and cursor were closed before returning, and the
principal string passed to `cur.execute` (if the store was contacted). -/
structure HandlerResult where
  status : Nat
  body : ResponseBody
  connOpened : Bool
  connClosed : Bool
  curClosed : Bool
  storeQueried : Option String
deriving DecidableEq

/-- Body of the 400 response for a missing or empty `user_name` parameter. -/
def missingParamBody : ResponseBody :=
  .errorObj "Missing \x27user_name\x27 parameter" none

/-- The sentinel message returned when the query yields no rows; it
interpolates the raw (unnormalized) request parameter. -/
def sentinel (userNameParam : String) : String :=
  "No role hierarchy found for user \x27" ++ userNameParam ++
    "\x27. User may not exist, have no roles, or grants are not visible."

/-- The route's `except` chain: classify a store exception into a status
code and error body, mirroring lines 131-144 of the source. -/
def classifyStoreExc (userNameParam : String) (e : PyExc) : Nat × ResponseBody :=
  match e with
  | .programmingError detail =>
    if strContains (pyLower detail) "object does not exist or not authorized" then
      (404, .errorObj ("User \x27" ++ userNameParam ++
        "\x27 may not exist, or the connecting role lacks permissions to view its grants or the ACCOUNT_USAGE schema.")
        (some detail))
    else if strContains (pyLower detail) "connection_name" &&
        strContains (pyLower detail) "not found" then
      (500, .errorObj
        "Snowflake connection name \x27bsabwew-sj64889\x27 not found. Please configure it in ~/.snowflake/connections.toml"
        (some detail))
    else
      (500, .errorObj "Error querying Snowflake for role hierarchy (CTE)."
        (some detail))
  | .valueError detail =>
    (500, .errorObj "Server configuration error (e.g., Snowflake connection)."
      (some detail))
  | .otherExc detail =>
    (500, .errorObj
      "An unexpected error occurred on the server while fetching role hierarchy (CTE)."
      (some detail))

/-- The Flask route `GET /api/role-hierarchy`.  Mirrors the source: reject a
missing or empty `user_name`; normalize with `strip().upper()`; open the
connection and cursor; execute the CTE inside a `try/finally` that closes
cursor and connection; return the sentinel when no rows are found, the
ordered path strings otherwise; classify exceptions via the `except`
chain.  Note the `finally` block guards only the execute/fetch region: a
fault in `connection.cursor()` itself is classified without the connection
being closed. -/
def get_role_hierarchy_route (env : StoreEnv) (userNameParam : Option String) :
    HandlerResult :=
  match userNameParam with
  | none => ⟨400, missingParamBody, false, false, false, none⟩
  | some p =>
    if p = "" then ⟨400, missingParamBody, false, false, false, none⟩
    else
      let upper := pyUpper (pyStrip p)
      match env.connectExc with
      | some e =>
        let r := classifyStoreExc p e
        ⟨r.1, r.2, false, false, false, none⟩
      | none =>
        match env.cursorExc with
        | some e =>
          let r := classifyStoreExc p e
          ⟨r.1, r.2, true, false, false, none⟩
        | none =>
          match env.executeExc with
          | some e =>
            let r := classifyStoreExc p e
            ⟨r.1, r.2, true, true, true, some upper⟩
          | none =>
            let results := cteSorted env.store upper
            if results = [] then
              ⟨200, .strings [sentinel p], true, true, true, some upper⟩
            else
              ⟨200, .strings (results.map HierarchyNode.path_string),
                true, true, true, some upper⟩

/-- A parsed JSON value as the fetch worker inspects it with `isinstance`:
a list (of the strings this protocol carries), a dict with string values, a
string, `None`, or a number. -/
inductive PyVal where
  | vlist (items : List String)
  | vdict (fields : List (String × String))
  | vstr (s : String)
  | vnone
  | vnum (n : Int)
deriving DecidableEq

/-- Python `key in v` for a parsed JSON value: key membership on a dict,
element membership on a list, substring on a string; on `None` or a number
it raises `TypeError` (modelled as `.error`). -/
def pyIn (key : String) (v : PyVal) : Except String Bool :=
  match v with
  | .vdict fields => .ok (fields.lookup key).isSome
  | .vlist items => .ok (items.contains key)
  | .vstr s => .ok (strContains s key)
  | .vnone => .error "argument of type \x27NoneType\x27 is not iterable"
  | .vnum _ => .error "argument of type \x27int\x27 is not iterable"

/-- Python `v.get(key)` / `v.get(key, default)` rendered into an f-string:
defined on dicts (a missing key renders as the default, or `None`); on any
other value `.get` raises `AttributeError` (modelled as `.error`). -/
def pyGet (v : PyVal) (key : String) (deflt : String) : Except String String :=
  match v with
  | .vdict fields =>
    .ok (match fields.lookup key with
      | some s => s
      | none => deflt)
  | _ => .error "object has no attribute \x27get\x27"

/-- Outcome signals of the fetch worker: `data_ready` or `error_occurred`. -/
inductive FetchOutcome where
  | dataReady (items : List String)
  | errorOccurred (message : String)
deriving DecidableEq

/-- What one run of the worker does: emit exactly one signal, emit nothing,
or terminate with an uncaught exception (no signal emitted). -/
inductive RunResult where
  | emitted (o : FetchOutcome)
  | silent
  | crashed (message : String)
deriving DecidableEq

/-- Whether a run delivered a signal to its subscribers. -/
def RunResult.emits : RunResult → Bool
  | .emitted _ => true
  | .silent => false
  | .crashed _ => false

/-- Behaviour of the network call issued by the worker:
success (2xx) with the JSON parse of the body (`.error` = `ValueError`),
`requests.exceptions.Timeout`, `requests.exceptions.HTTPError` carrying the
status, reason and error-body parse, or another
`requests.exceptions.RequestException`. -/
inductive NetResult where
  | success (bodyParse : Except String PyVal)
  | timeout
  | httpError (status : Nat) (reason : String) (bodyParse : Except String PyVal)
  | transportError (message : String)

/-- Handling of a successfully parsed 2xx body (lines 176-182): a list is
emitted via `data_ready`; a dict containing `error` is emitted as a backend
error message; any other shape as the unexpected-format message. -/
def handleParsed (data : PyVal) : FetchOutcome :=
  match data with
  | .vlist items => .dataReady items
  | .vdict fields =>
    if (fields.lookup "error").isSome then
      .errorOccurred ("Backend error: " ++
        (match fields.lookup "error" with | some s => s | none => "None") ++
        " (Details: " ++
        (match fields.lookup "details" with | some s => s | none => "N/A") ++ ")")
    else
      .errorOccurred "Received unexpected data format from the server."
  | _ => .errorOccurred "Received unexpected data format from the server."

/-- Message construction inside the `except HTTPError` handler (lines
187-193): start from status and reason, then try to enrich from the JSON
error body; a `ValueError` from parsing is swallowed, but a `TypeError`
from `"error" in err_details` (or an `AttributeError` from `.get`) on a
non-container body propagates (`.error`). -/
def buildHttpErrMsg (status : Nat) (reason : String)
    (bodyParse : Except String PyVal) : Except String String :=
  let base := "HTTP error: " ++ toString status ++ " " ++ reason
  match bodyParse with
  | .error _ => .ok base
  | .ok v =>
    match pyIn "error" v with
    | .error t => .error t
    | .ok hasErr =>
      match (if hasErr then (pyGet v "error" "None").map
          (fun s => base ++ " - " ++ s) else .ok base) with
      | .error t => .error t
      | .ok m1 =>
        match pyIn "details" v with
        | .error t => .error t
        | .ok hasDet =>
          if hasDet then
            (pyGet v "details" "None").map
              (fun s => m1 ++ " (Details: " ++ s ++ ")")
          else .ok m1

/-- `FetchWorker.run` (lines 167-198).  `beforeCall` is the value of
`_is_running` read at the checkpoint before the request is issued (line
168); `afterCall` its value at the checkpoint after the call returns (line
174); `atGuard` its value at the `if self._is_running:` guards inside the
`except` handlers.  The flag only ever moves from `true` to `false`
(`stop()`), so on every real execution `beforeCall ≥ afterCall ≥ atGuard`. -/
def FetchWorker.run (beforeCall afterCall atGuard : Bool) (net : NetResult) :
    RunResult :=
  if beforeCall = false then .silent
  else
    match net with
    | .success bodyParse =>
      if afterCall = false then .silent
      else
        match bodyParse with
        | .ok data => .emitted (handleParsed data)
        | .error m =>
          if atGuard then
            .emitted (.errorOccurred ("Error decoding JSON response: " ++ m))
          else .silent
    | .timeout =>
      if atGuard then
        .emitted (.errorOccurred
          "The request timed out. Please check the backend server or query complexity.")
      else .silent
    | .httpError status reason bodyParse =>
      if atGuard then
        match buildHttpErrMsg status reason bodyParse with
        | .ok m => .emitted (.errorOccurred m)
        | .error t => .crashed t
      else .silent
    | .transportError m =>
      if atGuard then
        .emitted (.errorOccurred ("Error fetching data: " ++ m ++
          ". Is the backend server running correctly?"))
      else .silent

/-- A store environment in which every driver operation succeeds. -/
def okEnv (store : GrantStore) : StoreEnv :=
  { store := store, connectExc := none, cursorExc := none, executeExc := none }

/-- The grant store of Scenario A: `ALICE` holds `ANALYST` directly, and
`ANALYST` holds `READER` through a `USAGE`-on-`ROLE` grant. -/
def storeA : GrantStore :=
  { grantsToUsers := [{ granteeName := "ALICE", role := "ANALYST", deletedOn := none }],
    grantsToRoles := [{ granteeName := "ANALYST", name := "READER",
                        privilege := "USAGE", grantedOn := "ROLE", deletedOn := none }] }

/-- A grant store with no edges at all. -/
def emptyStore : GrantStore :=
  { grantsToUsers := [], grantsToRoles := [] }

/-- Twenty-one role names forming a linear grant chain. -/
def chainNames : List String :=
  ["A", "B", "C", "D", "E", "F", "G", "H", "I", "J", "K",
   "L", "M", "N", "O", "P", "Q", "R", "S", "T", "U"]

/-- A store granting `ALICE` the role `A`, with role `i` holding role
`i + 1` along `chainNames`: a chain of depth 20 below the anchor. -/
def chainStore : GrantStore :=
  { grantsToUsers := [{ granteeName := "ALICE", role := "A", deletedOn := none }],
    grantsToRoles := (chainNames.zip chainNames.tail).map
      (fun ab => { granteeName := ab.1, name := ab.2, privilege := "USAGE",
                   grantedOn := "ROLE", deletedOn := none }) }

/-! ## General lemmas about the resolver -/

theorem charListLe_total : ∀ a b, charListLe a b = true ∨ charListLe b a = true
  | [], _ => Or.inl rfl
  | _ :: _, [] => Or.inr rfl
  | a :: as, b :: bs => by
    by_cases hab : a < b
    · exact Or.inl (by simp [charListLe, hab])
    · by_cases hba : b < a
      · exact Or.inr (by simp [charListLe, hba])
      · rcases charListLe_total as bs with h | h
        · exact Or.inl (by simp [charListLe, hab, hba, h])
        · exact Or.inr (by simp [charListLe, hab, hba, h])

theorem charListLe_trans :
    ∀ a b c, charListLe a b = true → charListLe b c = true → charListLe a c = true
  | [], _, _, _, _ => rfl
  | _ :: _, [], _, hab, _ => by simp [charListLe] at hab
  | _ :: _, _ :: _, [], _, hbc => by simp [charListLe] at hbc
  | a :: as, b :: bs, c :: cs, hab, hbc => by
    by_cases hab1 : a < b
    · by_cases hbc1 : b < c
      · simp [charListLe, lt_trans hab1 hbc1]
      · by_cases hcb : c < b
        · simp [charListLe, hbc1, hcb] at hbc
        · have hbc2 : b = c := le_antisymm (not_lt.mp hcb) (not_lt.mp hbc1)
          simp [charListLe, hbc2 ▸ hab1]
    · by_cases hba : b < a
      · simp [charListLe, hab1, hba] at hab
      · have hab2 : a = b := le_antisymm (not_lt.mp hba) (not_lt.mp hab1)
        subst hab2
        by_cases hbc1 : a < c
        · simp [charListLe, hbc1]
        · by_cases hcb : c < a
          · simp [charListLe, hbc1, hcb] at hbc
          · simp only [charListLe, if_neg hab1, if_neg hba] at hab
            simp only [charListLe, if_neg hbc1, if_neg hcb] at hbc ⊢
            exact charListLe_trans as bs cs hab hbc

/-- The code builds `path_string` incrementally: extending a nonempty chain
appends the separator and the new role name. -/
theorem joinSep_append (sep x : String) :
    ∀ l : List String, l ≠ [] → joinSep sep (l ++ [x]) = joinSep sep l ++ sep ++ x
  | [], h => absurd rfl h
  | [_], _ => rfl
  | a :: b :: l, _ => by
    have ih := joinSep_append sep x (b :: l) (by simp)
    simp only [List.cons_append, List.append_eq, joinSep] at ih ⊢
    rw [ih]
    simp [String.append_assoc]

theorem expandAll_nil (store : GrantStore) :
    ∀ fuel, expandAll store [] fuel = []
  | 0 => rfl
  | fuel + 1 => by
    have h : expandFrontier store [] = [] := rfl
    rw [expandAll, h, expandAll_nil store fuel]
    rfl

theorem mem_expandNode {store : GrantStore} {n c : HierarchyNode}
    (h : c ∈ expandNode store n) :
    c.level = n.level + 1 ∧ c.names = n.names ++ [c.roleName] := by
  unfold expandNode at h
  rcases List.mem_map.mp h with ⟨g, _, rfl⟩
  exact ⟨rfl, rfl⟩

theorem mem_expandFrontier {store : GrantStore} {frontier : List HierarchyNode}
    {c : HierarchyNode} (h : c ∈ expandFrontier store frontier) :
    ∃ m ∈ frontier, m.level < 20 ∧ c ∈ expandNode store m := by
  unfold expandFrontier at h
  rcases List.mem_flatMap.mp h with ⟨m, hm, hc⟩
  by_cases hl : m.level < 20
  · exact ⟨m, hm, hl, by simpa [hl] using hc⟩
  · simp [hl] at hc

theorem mem_expandAll_level {store : GrantStore} :
    ∀ {fuel : Nat} {frontier : List HierarchyNode} {n : HierarchyNode},
      n ∈ expandAll store frontier fuel → n.level ≤ 20 ∧ 0 < n.level := by
  intro fuel
  induction fuel with
  | zero => intro frontier n h; simp [expandAll] at h
  | succ fuel ih =>
    intro frontier n h
    rw [expandAll] at h
    rcases List.mem_append.mp h with h1 | h2
    · obtain ⟨m, _, hlt, hc⟩ := mem_expandFrontier h1
      obtain ⟨hlev, _⟩ := mem_expandNode hc
      omega
    · exact ih h2

theorem mem_expandAll_parent {store : GrantStore} :
    ∀ {fuel : Nat} {frontier : List HierarchyNode} {n : HierarchyNode},
      n ∈ expandAll store frontier fuel →
      ∃ m, (m ∈ frontier ∨ m ∈ expandAll store frontier fuel) ∧
        m.level < 20 ∧ n.names = m.names ++ [n.roleName] ∧ n.level = m.level + 1 := by
  intro fuel
  induction fuel with
  | zero => intro frontier n h; simp [expandAll] at h
  | succ fuel ih =>
    intro frontier n h
    rw [expandAll] at h
    rcases List.mem_append.mp h with h1 | h2
    · obtain ⟨m, hm, hlt, hc⟩ := mem_expandFrontier h1
      obtain ⟨hlev, hnames⟩ := mem_expandNode hc
      exact ⟨m, Or.inl hm, hlt, hnames, hlev⟩
    · obtain ⟨m, hm, hlt, hnames, hlev⟩ := ih h2
      refine ⟨m, Or.inr ?_, hlt, hnames, hlev⟩
      rw [expandAll]
      rcases hm with hm | hm
      · exact List.mem_append.mpr (Or.inl hm)
      · exact List.mem_append.mpr (Or.inr hm)

theorem mem_expandAll_names_length {store : GrantStore} :
    ∀ {fuel : Nat} {frontier : List HierarchyNode},
      (∀ m ∈ frontier, m.names.length = m.level + 1) →
      ∀ n ∈ expandAll store frontier fuel, n.names.length = n.level + 1 := by
  intro fuel
  induction fuel with
  | zero => intro frontier _ n h; simp [expandAll] at h
  | succ fuel ih =>
    intro frontier hf n h
    have hnext : ∀ c ∈ expandFrontier store frontier, c.names.length = c.level + 1 := by
      intro c hc
      obtain ⟨m, hm, _, hcm⟩ := mem_expandFrontier hc
      obtain ⟨hlev, hnames⟩ := mem_expandNode hcm
      rw [hnames, hlev, List.length_append, hf m hm]
      rfl
    rw [expandAll] at h
    rcases List.mem_append.mp h with h1 | h2
    · exact hnext n h1
    · exact ih hnext n h2

theorem mem_anchorNodes {store : GrantStore} {p : String} {n : HierarchyNode}
    (h : n ∈ anchorNodes store p) : n.level = 0 ∧ n.names = [n.roleName] := by
  unfold anchorNodes at h
  rcases List.mem_map.mp h with ⟨g, _, rfl⟩
  exact ⟨rfl, rfl⟩

theorem cteRows_level_le {store : GrantStore} {p : String} {n : HierarchyNode}
    (h : n ∈ cteRows store p) : n.level ≤ 20 := by
  unfold cteRows at h
  rcases List.mem_append.mp h with h1 | h2
  · exact (mem_anchorNodes h1).1 ▸ Nat.zero_le 20
  · exact (mem_expandAll_level h2).1

theorem cteRows_names_length {store : GrantStore} {p : String} {n : HierarchyNode}
    (h : n ∈ cteRows store p) : n.names.length = n.level + 1 := by
  unfold cteRows at h
  have hanchor : ∀ m ∈ anchorNodes store p, m.names.length = m.level + 1 := by
    intro m hm
    obtain ⟨h0, hn⟩ := mem_anchorNodes hm
    rw [hn, h0]
    rfl
  rcases List.mem_append.mp h with h1 | h2
  · exact hanchor n h1
  · exact mem_expandAll_names_length hanchor n h2

theorem cteRows_parent {store : GrantStore} {p : String} {n : HierarchyNode}
    (h : n ∈ cteRows store p) (hl : 0 < n.level) :
    ∃ m ∈ cteRows store p,
      n.names = m.names ++ [n.roleName] ∧ n.level = m.level + 1 := by
  unfold cteRows at h ⊢
  rcases List.mem_append.mp h with h1 | h2
  · rw [(mem_anchorNodes h1).1] at hl
    exact absurd hl (by omega)
  · obtain ⟨m, hm, _, hnames, hlev⟩ := mem_expandAll_parent h2
    refine ⟨m, ?_, hnames, hlev⟩
    rcases hm with hm | hm
    · exact List.mem_append.mpr (Or.inl hm)
    · exact List.mem_append.mpr (Or.inr hm)

theorem mem_resolvePaths {store : GrantStore} {p : String} {s : String} :
    s ∈ resolvePaths store p ↔ ∃ n ∈ cteRows store p, s = n.path_string := by
  unfold resolvePaths cteSorted
  rw [List.mem_map]
  constructor
  · rintro ⟨n, hn, rfl⟩
    exact ⟨n, (List.perm_insertionSort pathLe (cteRows store p)).mem_iff.mp hn, rfl⟩
  · rintro ⟨n, hn, rfl⟩
    exact ⟨n, (List.perm_insertionSort pathLe (cteRows store p)).mem_iff.mpr hn, rfl⟩

theorem resolvePaths_sorted (store : GrantStore) (p : String) :
    List.Sorted (fun a b => strLe a b = true) (resolvePaths store p) := by
  haveI : IsTotal HierarchyNode pathLe :=
    ⟨fun a b => charListLe_total a.path_string.data b.path_string.data⟩
  haveI : IsTrans HierarchyNode pathLe :=
    ⟨fun a b c hab hbc =>
      charListLe_trans a.path_string.data b.path_string.data c.path_string.data hab hbc⟩
  have hs : List.Sorted pathLe (cteSorted store p) :=
    List.sorted_insertionSort pathLe (cteRows store p)
  unfold resolvePaths
  exact (List.pairwise_map).mpr hs

/-- When every driver operation succeeds and the parameter is non-empty,
the route returns 200 with either the sentinel (no rows) or the ordered
path strings, the connection and cursor closed, and the store queried with
the normalized principal. -/
theorem route_ok_eq (store : GrantStore) (p : String) (hp : p ≠ "") :
    get_role_hierarchy_route (okEnv store) (some p) =
      if cteSorted store (pyUpper (pyStrip p)) = [] then
        ⟨200, .strings [sentinel p], true, true, true, some (pyUpper (pyStrip p))⟩
      else
        ⟨200, .strings ((cteSorted store (pyUpper (pyStrip p))).map
            HierarchyNode.path_string),
          true, true, true, some (pyUpper (pyStrip p))⟩ := by
  unfold get_role_hierarchy_route okEnv
  simp [hp]

/-- If the anchor set of a principal is empty, the whole CTE is empty. -/
theorem cteSorted_eq_nil_of_anchor_nil (store : GrantStore) (u : String)
    (h : anchorNodes store u = []) : cteSorted store u = [] := by
  unfold cteSorted cteRows
  rw [h, expandAll_nil]
  rfl

/-- C1: on the two-edge store of Scenario A, resolving `alice` yields
status 200 with exactly `["ANALYST", "ANALYST -> READER"]` in that order,
and in general the returned path strings are sorted by byte-wise
lexicographic order. -/
theorem c1_scenario_a_and_lexicographic_order :
    get_role_hierarchy_route (okEnv storeA) (some "alice") =
      ⟨200, .strings ["ANALYST", "ANALYST -> READER"], true, true, true,
        some "ALICE"⟩ ∧
    ∀ (store : GrantStore) (principal : String),
      List.Sorted (fun a b => strLe a b = true) (resolvePaths store principal) :=
  ⟨by decide, resolvePaths_sorted⟩

/-- C2 counterexample: on a 21-role linear chain the resolution emits the
full-chain path string, which has 21 segments (role names) — more than the
20 segments the claim allows.  (The guard `urh.level < 20` still expands
level-19 rows, so level-20 rows with 21 role names are emitted.) -/
theorem c2_segment_bound_counterexample :
    joinSep " -> " chainNames ∈ resolvePaths chainStore "ALICE" ∧
    segCount (joinSep " -> " chainNames) = 21 ∧
    chainNames.length = 21 := by decide

/-- C2 (amended): a row at level `L` is expanded only when `L < 20` (a
frontier whose rows all have level at least 20 produces nothing), and every
emitted path string is the path of a row of level at most 20, hence is
composed of at most 21 segments (role names). -/
theorem c2_depth_bound (store : GrantStore) (principal : String) :
    (∀ frontier : List HierarchyNode, (∀ m ∈ frontier, 20 ≤ m.level) →
      expandFrontier store frontier = []) ∧
    ∀ s ∈ resolvePaths store principal,
      ∃ n ∈ cteRows store principal,
        s = n.path_string ∧ n.level ≤ 20 ∧ n.names.length = n.level + 1 ∧
          n.names.length ≤ 21 := by
  constructor
  · intro frontier hf
    induction frontier with
    | nil => rfl
    | cons m ms ih =>
      have hm : ¬m.level < 20 := by
        have := hf m (List.mem_cons_self m ms)
        omega
      have hms := ih fun x hx => hf x (List.mem_cons_of_mem m hx)
      simp only [expandFrontier, List.flatMap_cons, if_neg hm,
        List.nil_append] at hms ⊢
      exact hms
  · intro s hs
    obtain ⟨n, hn, rfl⟩ := mem_resolvePaths.mp hs
    have h1 := cteRows_level_le hn
    have h2 := cteRows_names_length hn
    exact ⟨n, hn, rfl, h1, h2, by omega⟩

/-- Witness for C2 (amended) at the 21-role chain store. -/
theorem c2_depth_bound_witness :
    ∃ n ∈ cteRows chainStore "ALICE",
      joinSep " -> " chainNames = n.path_string ∧ n.level ≤ 20 ∧
        n.names.length = n.level + 1 ∧ n.names.length ≤ 21 :=
  (c2_depth_bound chainStore "ALICE").2 (joinSep " -> " chainNames) (by decide)

/-- C4 counterexample: with no grants at all, resolving `BOB` returns 200
with a one-element array, but the emitted sentinel text interpolates the
raw parameter in quotes and says `user`/`User`, not the
`principal`/`Principal` wording the claim quotes. -/
theorem c4_sentinel_wording_counterexample :
    (get_role_hierarchy_route (okEnv emptyStore) (some "BOB")).status = 200 ∧
    (get_role_hierarchy_route (okEnv emptyStore) (some "BOB")).body =
      .strings [sentinel "BOB"] ∧
    sentinel "BOB" ≠
      "No role hierarchy found for BOB. Principal may not exist, have no roles, or grants are not visible." := by
  decide

/-- C4 (amended): for every principal whose anchor set is empty, the route
returns status 200 with a one-element array containing exactly the sentinel
message `No role hierarchy found for user '<param>'. User may not exist,
have no roles, or grants are not visible.` (interpolating the raw
parameter) — never an empty array. -/
theorem c4_empty_anchor_sentinel (store : GrantStore) (p : String) (hp : p ≠ "")
    (h : anchorNodes store (pyUpper (pyStrip p)) = []) :
    get_role_hierarchy_route (okEnv store) (some p) =
      ⟨200, .strings [sentinel p], true, true, true,
        some (pyUpper (pyStrip p))⟩ := by
  rw [route_ok_eq store p hp, if_pos (cteSorted_eq_nil_of_anchor_nil store _ h)]

/-- Witness for C4 (amended): resolving `bob` against the empty store. -/
theorem c4_empty_anchor_sentinel_witness :
    get_role_hierarchy_route (okEnv emptyStore) (some "bob") =
      ⟨200, .strings [sentinel "bob"], true, true, true, some "BOB"⟩ :=
  c4_empty_anchor_sentinel emptyStore "bob" (by decide) (by decide)

/-- C5 counterexample: if `connection.cursor()` itself faults after the
connection is opened, the `try/finally` has not been entered yet, so the
route classifies the fault and returns with the connection still open. -/
theorem c5_cursor_fault_leaks_connection :
    (get_role_hierarchy_route
        ⟨emptyStore, none, some (.otherExc "cursor allocation failed"), none⟩
        (some "ALICE")).connOpened = true ∧
    (get_role_hierarchy_route
        ⟨emptyStore, none, some (.otherExc "cursor allocation failed"), none⟩
        (some "ALICE")).connClosed = false ∧
    (get_role_hierarchy_route
        ⟨emptyStore, none, some (.otherExc "cursor allocation failed"), none⟩
        (some "ALICE")).status = 500 := by
  decide

/-- C5 (amended): on every invocation in which the connection and the
cursor are both successfully acquired, the cursor and the connection are
closed before the handler returns, on every exit path (success, sentinel,
or a store fault raised during execute/fetch). -/
theorem c5_connection_released (env : StoreEnv) (p : String) (hp : p ≠ "")
    (hc : env.connectExc = none) (hcur : env.cursorExc = none) :
    (get_role_hierarchy_route env (some p)).connClosed = true ∧
    (get_role_hierarchy_route env (some p)).curClosed = true := by
  obtain ⟨st, cE, uE, eE⟩ := env
  simp only at hc hcur
  subst hc hcur
  unfold get_role_hierarchy_route
  simp only [if_neg hp]
  cases eE with
  | some e => exact ⟨rfl, rfl⟩
  | none =>
    by_cases hres : cteSorted st (pyUpper (pyStrip p)) = [] <;>
      simp [hres]

/-- Witness for C5 (amended): a store fault during execute still closes
cursor and connection. -/
theorem c5_connection_released_witness :
    (get_role_hierarchy_route
        ⟨emptyStore, none, none, some (.otherExc "network dropped")⟩
        (some "ALICE")).connClosed = true ∧
    (get_role_hierarchy_route
        ⟨emptyStore, none, none, some (.otherExc "network dropped")⟩
        (some "ALICE")).curClosed = true :=
  c5_connection_released
    ⟨emptyStore, none, none, some (.otherExc "network dropped")⟩
    "ALICE" (by decide) rfl rfl

/-- C10: a whitespace-only `user_name` such as `" "` passes the emptiness
check (it is truthy), so no 400 is returned; normalization reduces it to
the empty string, which is what the store is queried with; and when no
grantee matches the empty string the sentinel result is returned. -/
theorem c10_blank_param_reaches_store (store : GrantStore) :
    (get_role_hierarchy_route (okEnv store) (some " ")).status = 200 ∧
    (get_role_hierarchy_route (okEnv store) (some " ")).storeQueried =
      some "" ∧
    (anchorNodes store "" = [] →
      (get_role_hierarchy_route (okEnv store) (some " ")).body =
        .strings [sentinel " "]) := by
  have hup : pyUpper (pyStrip " ") = "" := by decide
  have heq := route_ok_eq store " " (by decide)
  rw [hup] at heq
  refine ⟨?_, ?_, ?_⟩
  · rw [heq]
    by_cases hres : cteSorted store "" = [] <;> simp [hres]
  · rw [heq]
    by_cases hres : cteSorted store "" = [] <;> simp [hres]
  · intro h
    rw [heq, if_pos (cteSorted_eq_nil_of_anchor_nil store _ h)]

/-- Witness for C10 at the empty store. -/
theorem c10_blank_param_reaches_store_witness :
    (get_role_hierarchy_route (okEnv emptyStore) (some " ")).status = 200 ∧
    (get_role_hierarchy_route (okEnv emptyStore) (some " ")).storeQueried =
      some "" ∧
    (get_role_hierarchy_route (okEnv emptyStore) (some " ")).body =
      .strings [sentinel " "] := by
  obtain ⟨h1, h2, h3⟩ := c10_blank_param_reaches_store emptyStore
  exact ⟨h1, h2, h3 (by decide)⟩

/-- C6 counterexample: a store `ProgrammingError` whose detail mentions
`not authorized` — but not the full phrase
`object does not exist or not authorized` — is answered with status 500,
not 404. -/
theorem c6_not_authorized_alone_counterexample :
    strContains (pyLower "Access denied: not authorized") "not authorized" =
      true ∧
    (get_role_hierarchy_route
        ⟨emptyStore, none, none,
          some (.programmingError "Access denied: not authorized")⟩
        (some "alice")).status = 500 := by
  decide

/-- C6 (amended): a store `ProgrammingError` whose detail text contains the
phrase `object does not exist or not authorized` (case-insensitively) is
answered with status 404 and an error body carrying a classified message
and the store's detail string. -/
theorem c6_object_not_exist_classified_404 (env : StoreEnv) (p d : String)
    (hp : p ≠ "") (hc : env.connectExc = none) (hcur : env.cursorExc = none)
    (he : env.executeExc = some (.programmingError d))
    (hd : strContains (pyLower d) "object does not exist or not authorized" =
      true) :
    (get_role_hierarchy_route env (some p)).status = 404 ∧
    (get_role_hierarchy_route env (some p)).body =
      .errorObj ("User \x27" ++ p ++
        "\x27 may not exist, or the connecting role lacks permissions to view its grants or the ACCOUNT_USAGE schema.")
        (some d) := by
  obtain ⟨st, cE, uE, eE⟩ := env
  simp only at hc hcur he
  subst hc hcur he
  unfold get_role_hierarchy_route classifyStoreExc
  simp [hp, hd]

/-- Witness for C6 (amended) at a concrete Snowflake-style detail text. -/
theorem c6_object_not_exist_classified_404_witness :
    (get_role_hierarchy_route
        ⟨emptyStore, none, none,
          some (.programmingError
            "002003 (02000): SQL compilation error: Object does not exist or not authorized.")⟩
        (some "alice")).status = 404 ∧
    (get_role_hierarchy_route
        ⟨emptyStore, none, none,
          some (.programmingError
            "002003 (02000): SQL compilation error: Object does not exist or not authorized.")⟩
        (some "alice")).body =
      .errorObj ("User \x27alice\x27 may not exist, or the connecting role lacks permissions to view its grants or the ACCOUNT_USAGE schema.")
        (some "002003 (02000): SQL compilation error: Object does not exist or not authorized.") :=
  c6_object_not_exist_classified_404
    ⟨emptyStore, none, none,
      some (.programmingError
        "002003 (02000): SQL compilation error: Object does not exist or not authorized.")⟩
    "alice"
    "002003 (02000): SQL compilation error: Object does not exist or not authorized."
    (by decide) rfl rfl rfl (by decide)

/-- C7: a missing or empty `user_name` parameter is answered with status
400 and body `{"error": "Missing 'user_name' parameter"}` without opening a
store connection; any value the store is queried with is the parameter
stripped of surrounding whitespace and uppercased, and when the driver
operations succeed the store is queried with exactly that value. -/
theorem c7_param_validation_and_normalization :
    (∀ env : StoreEnv,
      get_role_hierarchy_route env none =
        ⟨400, missingParamBody, false, false, false, none⟩ ∧
      get_role_hierarchy_route env (some "") =
        ⟨400, missingParamBody, false, false, false, none⟩) ∧
    (∀ (env : StoreEnv) (p s : String), p ≠ "" →
      (get_role_hierarchy_route env (some p)).storeQueried = some s →
      s = pyUpper (pyStrip p)) ∧
    (∀ (env : StoreEnv) (p : String), p ≠ "" →
      env.connectExc = none → env.cursorExc = none →
      (get_role_hierarchy_route env (some p)).storeQueried =
        some (pyUpper (pyStrip p))) := by
  refine ⟨fun env => ⟨rfl, rfl⟩, ?_, ?_⟩
  · rintro ⟨st, cE, uE, eE⟩ p s hp hq
    unfold get_role_hierarchy_route at hq
    simp only [if_neg hp] at hq
    cases cE with
    | some e => simp at hq
    | none =>
      cases uE with
      | some e => simp at hq
      | none =>
        cases eE with
        | some e =>
          simp only [Option.some.injEq] at hq
          exact hq.symm
        | none =>
          by_cases hres : cteSorted st (pyUpper (pyStrip p)) = [] <;>
            simp [hres] at hq <;> exact hq.symm
  · rintro ⟨st, cE, uE, eE⟩ p hp hc hcur
    simp only at hc hcur
    subst hc hcur
    unfold get_role_hierarchy_route
    simp only [if_neg hp]
    cases eE with
    | some e => rfl
    | none =>
      by_cases hres : cteSorted st (pyUpper (pyStrip p)) = [] <;> simp [hres]

/-- Witness for C7: the parameter `" alice "` is matched as `ALICE`. -/
theorem c7_param_validation_and_normalization_witness :
    (get_role_hierarchy_route (okEnv emptyStore) (some " alice ")).storeQueried =
      some "ALICE" :=
  c7_param_validation_and_normalization.2.2 (okEnv emptyStore) " alice "
    (by decide) rfl rfl

/-- C3 (evaluation at the failing input): for a run that reaches Running
with the cancellation flag never set, an HTTP-error response whose JSON
body parses to a non-container value (here `null`) makes
`"error" in err_details` raise an uncaught `TypeError` inside the
`except HTTPError` handler: the worker crashes and emits no outcome at
all, contradicting the exactly-one-outcome claim. -/
theorem c3_uncaught_typeerror_no_outcome :
    FetchWorker.run true true true (.httpError 404 "NOT FOUND" (.ok .vnone)) =
      .crashed "argument of type \x27NoneType\x27 is not iterable" ∧
    (FetchWorker.run true true true
        (.httpError 404 "NOT FOUND" (.ok .vnone))).emits = false := by
  decide

/-- C9 counterexample: a parsed 2xx body that is a dict containing an
`error` key is not answered with the generic unexpected-shape failure; it
gets a distinct backend-error message built from the dict's fields. -/
theorem c9_error_dict_counterexample :
    FetchWorker.run true true true
        (.success (.ok (.vdict [("error", "boom")]))) =
      .emitted (.errorOccurred "Backend error: boom (Details: N/A)") ∧
    FetchWorker.run true true true (.success (.ok .vnone)) =
      .emitted
        (.errorOccurred "Received unexpected data format from the server.") ∧
    ("Backend error: boom (Details: N/A)" : String) ≠
      "Received unexpected data format from the server." := by
  decide

/-- C9 (amended): for a run with the cancellation flag never set, a parsed
2xx body that is a list is emitted as `data_ready` with that list; a dict
containing an `error` key is emitted as `error_occurred` with a backend
message built from its `error` and `details` fields (`N/A` when absent);
every other shape is emitted as `error_occurred` with the
unexpected-data-format message. -/
theorem c9_success_shape_handling (g : Bool) :
    (∀ items : List String,
      FetchWorker.run true true g (.success (.ok (.vlist items))) =
        .emitted (.dataReady items)) ∧
    (∀ (fields : List (String × String)) (e : String),
      fields.lookup "error" = some e →
      FetchWorker.run true true g (.success (.ok (.vdict fields))) =
        .emitted (.errorOccurred ("Backend error: " ++ e ++ " (Details: " ++
          (fields.lookup "details").getD "N/A" ++ ")"))) ∧
    (∀ v : PyVal, (∀ items, v ≠ .vlist items) →
      (∀ fields, v = .vdict fields → fields.lookup "error" = none) →
      FetchWorker.run true true g (.success (.ok v)) =
        .emitted
          (.errorOccurred "Received unexpected data format from the server.")) := by
  refine ⟨fun items => rfl, ?_, ?_⟩
  · intro fields e he
    cases hd : fields.lookup "details" <;>
      simp [FetchWorker.run, handleParsed, he, hd]
  · intro v hlist hdict
    cases v with
    | vlist items => exact absurd rfl (hlist items)
    | vdict fields =>
      have h := hdict fields rfl
      simp [FetchWorker.run, handleParsed, h]
    | vstr s => rfl
    | vnone => rfl
    | vnum n => rfl

/-- Witness for C9 (amended): a dict error body with explicit details. -/
theorem c9_success_shape_handling_witness :
    FetchWorker.run true true true
        (.success (.ok (.vdict [("error", "x"), ("details", "y")]))) =
      .emitted (.errorOccurred "Backend error: x (Details: y)") :=
  (c9_success_shape_handling true).2.1 [("error", "x"), ("details", "y")] "x"
    (by decide)

/-- C8 counterexample: in Scenario A the path `ANALYST -> READER` has level
1, but the path string formed by its first `L - 1 = 0` segments is the
empty string, which is not in the result set; the claim's `first L-1
segments` is off by one (the parent is the first `L` segments). -/
theorem c8_first_segments_counterexample :
    (∃ n ∈ cteRows storeA "ALICE",
      n.level = 1 ∧ n.names = ["ANALYST", "READER"] ∧
        n.path_string = "ANALYST -> READER") ∧
    "ANALYST -> READER" ∈ resolvePaths storeA "ALICE" ∧
    joinSep " -> " ((["ANALYST", "READER"] : List String).take 0) = "" ∧
    "" ∉ resolvePaths storeA "ALICE" := by
  decide

/-- C8 (amended): for every CTE row of level `L > 0`, the path string
formed by its first `L` segments — its parent row's path — is also present
in the emitted result set; no truncation exception is needed, because
every emitted row's parent is itself emitted. -/
theorem c8_parent_prefix_invariant (store : GrantStore) (principal : String)
    (n : HierarchyNode) (hn : n ∈ cteRows store principal)
    (hl : 0 < n.level) :
    joinSep " -> " (n.names.take n.level) ∈ resolvePaths store principal ∧
    ∃ m ∈ cteRows store principal, m.level + 1 = n.level ∧
      joinSep " -> " (n.names.take n.level) = m.path_string := by
  obtain ⟨m, hm, hnames, hlev⟩ := cteRows_parent hn hl
  have hmlen : m.names.length = m.level + 1 := cteRows_names_length hm
  have htake : n.names.take n.level = m.names := by
    rw [hnames, hlev, ← hmlen, List.take_left]
  have hpath : joinSep " -> " (n.names.take n.level) = m.path_string := by
    rw [htake]
    rfl
  refine ⟨?_, m, hm, hlev.symm, hpath⟩
  rw [hpath]
  exact mem_resolvePaths.mpr ⟨m, hm, rfl⟩

/-- Witness for C8 (amended) at the level-1 row of Scenario A. -/
theorem c8_parent_prefix_invariant_witness :
    joinSep " -> " ((["ANALYST", "READER"] : List String).take 1) ∈
      resolvePaths storeA "ALICE" ∧
    ∃ m ∈ cteRows storeA "ALICE", m.level + 1 = 1 ∧
      joinSep " -> " ((["ANALYST", "READER"] : List String).take 1) =
        m.path_string :=
  c8_parent_prefix_invariant storeA "ALICE"
    ⟨1, "READER", "ROLE", "ANALYST", ["ANALYST", "READER"]⟩ (by decide)
    (by decide)
